import Mathlib

/-!
Verification of the TimeChimp MCP server core (timechimp-mcp-server.js).

The development shallowly embeds the request-construction / dispatch /
response-normalisation core of the server:

* JavaScript argument values are modelled by `JSValue` (JSON primitives plus
  `undefined`); argument bags by association lists of `JSValue`s.
* `buildQueryParams`, `buildFilterExpression`, `handleGetRequest`,
  `handleGetByIdRequest`, `makeRequest` and the per-tool handlers are direct
  transliterations of the corresponding functions of the source file.
* The HTTP layer is represented by an oracle `Fetch` mapping the single
  outgoing request to its outcome; every embedded operation returns, next to
  its result, the list of requests it actually issued, so "no network call"
  is the statement that this trace is empty.
-/

/-- A JavaScript value as it can appear in a tool-call argument bag.
JSON numbers are modelled as integers (no claim involves non-integral
numerics); nested arrays/objects are not needed by any claim and are not
modelled. -/
inductive JSValue where
  | undef
  | nullv
  | boolV (b : Bool)
  | numV (n : Int)
  | strV (s : String)
deriving DecidableEq, Repr

namespace JSValue

/-- JavaScript truthiness of a value (`if (v)`). -/
def truthy : JSValue → Bool
  | undef => false
  | nullv => false
  | boolV b => b
  | numV n => n != 0
  | strV s => s != ""

/-- String conversion as performed by template-literal interpolation
(`${v}`) and by `String(v)`. -/
def render : JSValue → String
  | undef => "undefined"
  | nullv => "null"
  | boolV true => "true"
  | boolV false => "false"
  | numV n => toString n
  | strV s => s

/-- The `.toString()` method call: throws a `TypeError` on `undefined` and
`null` (the carried message stands in for the runtime's wording, whose exact
text is not load-bearing), and agrees with `render` otherwise. -/
def toStrE : JSValue → Except String String
  | undef => .error "Cannot read properties of undefined (reading toString)"
  | nullv => .error "Cannot read properties of null (reading toString)"
  | v => .ok v.render

end JSValue

/-- An argument bag: the flat mapping from parameter name to value supplied
with one tool call. -/
def Args := List (String × JSValue)

/-- Reading a property of the argument bag: a missing key is `undefined`. -/
def Args.get (args : Args) (k : String) : JSValue :=
  (List.lookup k args).getD JSValue.undef

/-- The empty argument bag. -/
def Args.none : Args := []

-- sanity checks (truthiness of the JS model)
example : (JSValue.numV 0).truthy = false := by decide
example : (JSValue.strV "").truthy = false := by decide
example : (JSValue.numV 5).render = "5" := by decide

/-! ## Query Parameter Builder (source: `buildQueryParams`, lines 2803-2822)

`URLSearchParams` is modelled as an ordered list of key/value pairs; its
`toString` serialisation is modelled by `serializeParams` below, up to the
percent-encoding of the produced query string (which no claim concerns).

In the source, `top`/`skip` are appended only when truthy (so their
`.toString()` calls cannot throw and are modelled by `render`), while
`count` is appended whenever it is not strictly `undefined` — a `null`
count therefore reaches `null.toString()` and throws a `TypeError`, which
the builder propagates (modelled by the `Except` error). -/

/-- The `$count` fragment: `if (count !== undefined) params.append('$count', count.toString())`. -/
def countSegment (v : JSValue) : Except String (List (String × String)) :=
  if v = JSValue.undef then .ok []
  else match v.toStrE with
    | .error e => .error e
    | .ok s => .ok [("$count", s)]

/-- Source `buildQueryParams`: pagination, expansion, ordering and raw
filter, appended in that fixed order, each only under its source guard. -/
def buildQueryParams (args : Args) : Except String (List (String × String)) :=
  match countSegment (args.get "count") with
  | .error e => .error e
  | .ok pCount =>
    .ok ((if (args.get "top").truthy then [("$top", (args.get "top").render)] else [])
      ++ (if (args.get "skip").truthy then [("$skip", (args.get "skip").render)] else [])
      ++ pCount
      ++ (if (args.get "expand").truthy then [("$expand", (args.get "expand").render)] else [])
      ++ (if (args.get "orderby").truthy then [("$orderby", (args.get "orderby").render)] else [])
      ++ (if (args.get "filter").truthy then [("$filter", (args.get "filter").render)] else []))

/-! ## Filter Composer (source: `buildFilterExpression`, lines 2827-2871) -/

/-- One accumulator step of the composer:
`filterExpression ? filterExpression + " and " + frag : frag`. -/
def addAnd (acc frag : String) : String :=
  if acc = "" then frag else acc ++ " and " ++ frag

/-- Source `buildFilterExpression`: the seven filter sources are examined in
the fixed order active-flag, user, project, customer, from-date, to-date,
raw filter; each truthy source appends its fragment through `addAnd`. -/
def buildFilterExpression (args : Args) : String :=
  let fe := ""
  let fe := if (args.get "active_only").truthy then "active eq true" else fe
  let fe := if (args.get "user_id").truthy then
    addAnd fe ("user/id eq " ++ (args.get "user_id").render) else fe
  let fe := if (args.get "project_id").truthy then
    addAnd fe ("project/id eq " ++ (args.get "project_id").render) else fe
  let fe := if (args.get "customer_id").truthy then
    addAnd fe ("customer/id eq " ++ (args.get "customer_id").render) else fe
  let fe := if (args.get "from_date").truthy then
    addAnd fe ("date ge " ++ (args.get "from_date").render) else fe
  let fe := if (args.get "to_date").truthy then
    addAnd fe ("date le " ++ (args.get "to_date").render) else fe
  let fe := if (args.get "filter").truthy then
    addAnd fe ((args.get "filter").render) else fe
  fe

-- sanity: the spec scenario for get_time_entries
example :
    buildFilterExpression
      [("user_id", JSValue.strV "7"), ("from_date", JSValue.strV "2024-01-01"),
       ("to_date", JSValue.strV "2024-01-31")]
    = "user/id eq 7 and date ge 2024-01-01 and date le 2024-01-31" := by decide

example : buildFilterExpression [] = "" := by decide

example :
    buildQueryParams [("skip", JSValue.numV 0), ("count", JSValue.boolV false)]
    = .ok [("$count", "false")] := rfl

example :
    buildQueryParams [("count", JSValue.nullv)]
    = .error "Cannot read properties of null (reading toString)" := rfl

/-! ## JSON data and the HTTP layer -/

/-- Parsed JSON data, as returned by `response.json()`. -/
inductive Json where
  | nullJ
  | boolJ (b : Bool)
  | numJ (n : Int)
  | strJ (s : String)
  | arrJ (elems : List Json)
  | objJ (fields : List (String × Json))

/-- Quote a string as a JSON string literal (escaping of rare characters is
not modelled; no claim depends on it). -/
def jsonQuote (s : String) : String := "\"" ++ s ++ "\""

mutual

/-- Stand-in for `JSON.stringify(data, null, 2)`: a total serialisation of
`Json`. The exact whitespace of the pretty-printer is not load-bearing for
any claim (the serialised text is only ever wrapped opaquely into result
envelopes). -/
def Json.render : Json → String
  | .nullJ => "null"
  | .boolJ true => "true"
  | .boolJ false => "false"
  | .numJ n => toString n
  | .strJ s => jsonQuote s
  | .arrJ xs => "[" ++ Json.renderList xs ++ "]"
  | .objJ fs => "\x7b" ++ Json.renderFields fs ++ "\x7d"

/-- Comma-separated rendering of JSON array elements. -/
def Json.renderList : List Json → String
  | [] => ""
  | [x] => Json.render x
  | x :: xs => Json.render x ++ "," ++ Json.renderList xs

/-- Comma-separated rendering of JSON object fields. -/
def Json.renderFields : List (String × Json) → String
  | [] => ""
  | [(k, v)] => jsonQuote k ++ ":" ++ Json.render v
  | (k, v) :: fs => jsonQuote k ++ ":" ++ Json.render v ++ "," ++ Json.renderFields fs

end

/-- The MCP SDK error codes used by the source. -/
inductive ErrorCode where
  | InvalidRequest
  | MethodNotFound
  | InternalError
deriving DecidableEq, Repr

/-- An `McpError`: the SDK's protocol-level error value (code plus message). -/
structure McpError where
  code : ErrorCode
  message : String
deriving DecidableEq, Repr

/-- The one HTTP request a call to `makeRequest` can issue. -/
structure Request where
  url : String
  method : String
  headers : List (String × String)
  body : Option String
deriving DecidableEq, Repr

/-- The `options` argument of `makeRequest`; `fetch` defaults the method to
`GET` when options carry none, and the source never sets anything else. -/
structure ReqOptions where
  method : String := "GET"
  headers : List (String × String) := []
  body : Option String := none

/-- An HTTP response as observed through the `fetch` API: the success flag,
status line data, the body text (as read by `response.text()`), and the
outcome of parsing the body as JSON (as computed by `response.json()`, an
error carrying the parse failure's message). -/
structure FetchResponse where
  ok : Bool
  status : Nat
  statusText : String
  bodyText : String
  jsonBody : Except String Json

/-- Outcome of one `fetch` call: either the promise rejects (network /
transport failure carrying the underlying message) or a response arrives. -/
inductive FetchOutcome where
  | netFail (msg : String)
  | resp (r : FetchResponse)

/-- The network oracle: what the remote service answers to each request. -/
def Fetch := Request → FetchOutcome

/-- The immutable configuration read at process start. An unset
`TIMECHIMP_API_KEY` environment variable and an empty one are both falsy in
the source's `if (!this.apiKey)` guard and are both modelled as `""`. -/
structure Config where
  apiKey : String
deriving DecidableEq, Repr

/-- `this.baseUrl` (line 38). -/
def timechimpBaseUrl : String := "https://v2.api.timechimp.com"

/-- The fixed header set of `makeRequest` (lines 55-59, before the spread of
`options.headers`). -/
def fixedHeaders (apiKey : String) : List (String × String) :=
  [("api-key", apiKey), ("Content-Type", "application/json"),
   ("Accept", "application/json"), ("api-version", "2.0")]

/-- The object-spread merge `{ ...fixed, ...options.headers }` of line 55-61:
for each fixed key, a caller-supplied binding (if any) wins; caller-supplied
entries under new keys are appended in order. -/
def mergeHeaders (apiKey : String) (extra : List (String × String)) : List (String × String) :=
  (fixedHeaders apiKey).map (fun p => (p.1, (List.lookup p.1 extra).getD p.2))
    ++ extra.filter (fun p => !((fixedHeaders apiKey).map Prod.fst).contains p.1)

/-- The request `makeRequest` sends for a given endpoint and options. -/
def reqOf (cfg : Config) (endpoint : String) (opts : ReqOptions) : Request :=
  { url := timechimpBaseUrl ++ endpoint
    method := opts.method
    headers := mergeHeaders cfg.apiKey opts.headers
    body := opts.body }

/-- Source `makeRequest` (lines 46-88). Returns the executor's outcome (the
parsed body on success, the thrown `McpError` otherwise) together with the
list of HTTP requests actually issued. -/
def makeRequest (cfg : Config) (fetch : Fetch) (endpoint : String) (opts : ReqOptions) :
    Except McpError Json × List Request :=
  if cfg.apiKey = "" then
    (.error ⟨.InvalidRequest, "TIMECHIMP_API_KEY environment variable is required"⟩, [])
  else
    match fetch (reqOf cfg endpoint opts) with
    | .netFail msg =>
      (.error ⟨.InternalError, "Request failed: " ++ msg⟩, [reqOf cfg endpoint opts])
    | .resp r =>
      if r.ok = false then
        (.error ⟨.InternalError,
          "TimeChimp API error: " ++ toString r.status ++ " " ++ r.statusText
            ++ " - " ++ r.bodyText⟩, [reqOf cfg endpoint opts])
      else
        match r.jsonBody with
        | .error msg =>
          (.error ⟨.InternalError, "Request failed: " ++ msg⟩, [reqOf cfg endpoint opts])
        | .ok data => (.ok data, [reqOf cfg endpoint opts])

/-! ## Result envelopes and the generic request handlers -/

/-- One item of a tool result's `content` array (the source only ever emits
`type: 'text'` items). -/
inductive ContentItem where
  | text (s : String)
deriving DecidableEq, Repr

/-- The result envelope a handler returns to the protocol layer: the content
list, plus the `isError` flag (omitted on success in the source, i.e.
`false`). -/
structure ToolResult where
  content : List ContentItem
  isError : Bool := false
deriving DecidableEq, Repr

/-- A handler's outcome: the returned envelope, or a thrown non-`McpError`
exception (carried as its message — the only such throw in the embedded
core is the `TypeError` from a `null.toString()`), together with the trace
of issued HTTP requests. -/
def HandlerOut := Except String ToolResult × List Request

/-- `URLSearchParams.toString()` up to percent-encoding (no claim depends on
the encoding of the serialised query string). -/
def serializeParams (ps : List (String × String)) : String :=
  String.intercalate "&" (ps.map fun p => p.1 ++ "=" ++ p.2)

/-- `URLSearchParams.set(k, v)`: replaces the value of the first entry with
key `k` (removing any further entries with that key), or appends the pair if
the key is absent. -/
def setFirst : List (String × String) → String → String → List (String × String)
  | [], k, v => [(k, v)]
  | p :: rest, k, v =>
    if p.1 = k then (k, v) :: rest.filter (fun q => !(q.1 = k))
    else p :: setFirst rest k v

/-- Query-parameter assembly of `handleGetRequest` (lines 2877-2887): the
builder's parameters, then the default ordering when the caller supplied
none, then the composed filter written through `URLSearchParams.set`. -/
def handleGetParams (args : Args) (defaultOrderBy : JSValue) :
    Except String (List (String × String)) :=
  match buildQueryParams args with
  | .error e => .error e
  | .ok params =>
    let fe := buildFilterExpression args
    let params :=
      if defaultOrderBy.truthy && !(args.get "orderby").truthy then
        params ++ [("$orderby", defaultOrderBy.render)]
      else params
    .ok (if fe = "" then params else setFirst params "$filter" fe)

/-- Source `handleGetRequest` (lines 2876-2913). `defaultOrderBy` defaults
to `null` in the source and no caller ever passes anything else. -/
def handleGetRequest (cfg : Config) (fetch : Fetch) (endpoint : String) (args : Args)
    (defaultOrderBy : JSValue) : HandlerOut :=
  match handleGetParams args defaultOrderBy with
  | .error e => (.error e, [])
  | .ok params =>
    let qs := serializeParams params
    let fullEndpoint := endpoint ++ (if qs = "" then "" else "?" ++ qs)
    match makeRequest cfg fetch fullEndpoint {} with
    | (.ok data, tr) => (.ok { content := [.text data.render] }, tr)
    | (.error e, tr) =>
      (.ok { content := [.text ("Error retrieving data from " ++ endpoint ++ ": " ++ e.message)]
             isError := true }, tr)

/-- The path-plus-query a get-by-id handler requests:
`${endpoint}/${id}` with the optional `$expand` parameter (lines
2919-2922). -/
def getByIdEndpoint (endpoint : String) (id expand : JSValue) : String :=
  let params := if expand.truthy then [("$expand", expand.render)] else []
  let qs := serializeParams params
  endpoint ++ "/" ++ id.render ++ (if qs = "" then "" else "?" ++ qs)

/-- Source `handleGetByIdRequest` (lines 2918-2946). A missing `id` arrives
as `undefined` and is interpolated into the path as the string
`"undefined"`; there is no validation. -/
def handleGetByIdRequest (cfg : Config) (fetch : Fetch) (endpoint : String)
    (id expand : JSValue) : HandlerOut :=
  match makeRequest cfg fetch (getByIdEndpoint endpoint id expand) {} with
  | (.ok data, tr) => (.ok { content := [.text data.render] }, tr)
  | (.error e, tr) =>
    (.ok { content := [.text ("Error retrieving data from " ++ endpoint ++ "/" ++ id.render
            ++ ": " ++ e.message)]
           isError := true }, tr)

/-! ## Mutating handlers

The create/update/bulk-status handlers of the source all share one literal
shape: destructure the declared body fields from the argument bag, send
`JSON.stringify` of the assembled object, wrap the outcome. The shape is
embedded once (`sendBody`) and instantiated per tool with the field list,
path and message of the corresponding source handler. -/

/-- A body field's JSON rendering inside `JSON.stringify` (primitive values;
`undefined`-valued fields are dropped by `stringifyFields` before this is
applied). -/
def jsonLit : JSValue → String
  | .undef => "undefined"
  | .nullv => "null"
  | .boolV true => "true"
  | .boolV false => "false"
  | .numV n => toString n
  | .strV s => jsonQuote s

/-- `JSON.stringify` of an object literal with primitive field values:
fields holding `undefined` are dropped, the rest serialise in order. -/
def stringifyFields (l : List (String × JSValue)) : String :=
  "\x7b"
    ++ String.intercalate ","
      ((l.filter fun p => !(p.2 = JSValue.undef)).map fun p => jsonQuote p.1 ++ ":" ++ jsonLit p.2)
    ++ "\x7d"

/-- Body assembly for handlers that list their fields unconditionally
(`{ name, active, ... }` destructured straight from `args`). -/
def bodyOf (args : Args) (fields : List String) : String :=
  stringifyFields (fields.map fun k => (k, args.get k))

/-- The shared shape of every mutating handler: one `makeRequest` with the
given method and body, success wrapped as serialised data, failure as the
handler's error message text. -/
def sendBody (cfg : Config) (fetch : Fetch) (endpoint method errHead body : String) :
    HandlerOut :=
  match makeRequest cfg fetch endpoint { method := method, body := some body } with
  | (.ok data, tr) => (.ok { content := [.text data.render] }, tr)
  | (.error e, tr) => (.ok { content := [.text (errHead ++ e.message)], isError := true }, tr)

/-- The shared shape of the five delete handlers (source lines 3056-3083 and
the literal repetitions for contacts, customers, expenses, mileage): a
`DELETE` on `{basePath}/{id}`, success reported as the textual confirmation
`"<label> <id> deleted successfully"` instead of the remote body. -/
def deleteHandler (cfg : Config) (fetch : Fetch) (endpoint label errHead : String)
    (args : Args) : HandlerOut :=
  match makeRequest cfg fetch (endpoint ++ "/" ++ (args.get "id").render)
      { method := "DELETE" } with
  | (.ok _, tr) =>
    (.ok { content :=
             [.text (label ++ " " ++ (args.get "id").render ++ " deleted successfully")] }, tr)
  | (.error e, tr) => (.ok { content := [.text (errHead ++ e.message)], isError := true }, tr)

/-- The shared shape of the two status-history handlers (source lines
3705-3740 and 3948-3983): inline query-parameter building (same guards as
`buildQueryParams`, with `$filter` appended before `$orderby`), then a `GET`
on `{basePath}/{id}/statusHistory`. -/
def statusHistoryHandler (cfg : Config) (fetch : Fetch) (base errHead : String)
    (args : Args) : HandlerOut :=
  match countSegment (args.get "count") with
  | .error e => (.error e, [])
  | .ok pCount =>
    let params :=
      (if (args.get "top").truthy then [("$top", (args.get "top").render)] else [])
        ++ (if (args.get "skip").truthy then [("$skip", (args.get "skip").render)] else [])
        ++ pCount
        ++ (if (args.get "expand").truthy then [("$expand", (args.get "expand").render)] else [])
        ++ (if (args.get "filter").truthy then [("$filter", (args.get "filter").render)] else [])
        ++ (if (args.get "orderby").truthy then [("$orderby", (args.get "orderby").render)] else [])
    let qs := serializeParams params
    let fullEndpoint := base ++ "/" ++ (args.get "id").render ++ "/statusHistory"
      ++ (if qs = "" then "" else "?" ++ qs)
    match makeRequest cfg fetch fullEndpoint {} with
    | (.ok data, tr) => (.ok { content := [.text data.render] }, tr)
    | (.error e, tr) => (.ok { content := [.text (errHead ++ e.message)], isError := true }, tr)

/-! ## Per-tool handlers (source lines 2949-3983) -/

/-- Body fields of `createProject`/`updateProject` (in declaration order). -/
def projectFields : List String :=
  ["name", "active", "code", "notes", "color", "startDate", "endDate", "invoicing",
   "budget", "customer", "mainProject", "subprojects", "managers", "tags",
   "projectTasks", "projectUsers"]

/-- Body fields of `createUser`. -/
def userCreateFields : List String :=
  ["userName", "displayName", "language", "role", "sendInvitation", "contracts"]

/-- Body fields of `updateUser`. -/
def userUpdateFields : List String :=
  ["displayName", "language", "employeeNumber", "badgeNumber", "citizenServiceNumber",
   "role", "tags", "contracts"]

/-- Body fields of `createCustomer`/`updateCustomer`. -/
def customerFields : List String :=
  ["name", "active", "relationId", "address", "phone", "email", "website",
   "paymentPeriod", "hourlyRate", "mileageRate", "iban", "bic", "vatNumber",
   "kvkNumber", "invoiceAddress", "notes", "prospect", "vatRate", "tags", "contacts"]

/-- Body fields of `createExpense`/`updateExpense`. -/
def expenseFields : List String :=
  ["date", "notes", "quantity", "rate", "billable", "customer", "project",
   "product", "user", "vatRate"]

/-- Body fields of `createMileage`/`updateMileage`. -/
def mileageFields : List String :=
  ["date", "fromAddress", "toAddress", "notes", "distance", "billable", "type",
   "customer", "project", "vehicle", "user"]

/-- `createContact`'s conditionally-spread body (lines 3225-3233): `name`
always, `jobTitle`/`email`/`phone`/`customers` when truthy,
`useForInvoicing`/`active` when not `undefined`. -/
def contactCreateBody (args : Args) : String :=
  stringifyFields
    ([("name", args.get "name")]
      ++ (if (args.get "jobTitle").truthy then [("jobTitle", args.get "jobTitle")] else [])
      ++ (if (args.get "email").truthy then [("email", args.get "email")] else [])
      ++ (if (args.get "phone").truthy then [("phone", args.get "phone")] else [])
      ++ (if !(args.get "useForInvoicing" = JSValue.undef) then
            [("useForInvoicing", args.get "useForInvoicing")] else [])
      ++ (if !(args.get "active" = JSValue.undef) then [("active", args.get "active")] else [])
      ++ (if (args.get "customers").truthy then [("customers", args.get "customers")] else []))

/-- `updateContact`'s conditionally-spread body (lines 3265-3273): `name`
always, every other field when not `undefined`. -/
def contactUpdateBody (args : Args) : String :=
  stringifyFields
    ([("name", args.get "name")]
      ++ (["jobTitle", "email", "phone", "useForInvoicing", "active", "customers"].filterMap
            fun k => if !(args.get k = JSValue.undef) then some (k, args.get k) else none))

def getProjects (cfg : Config) (fetch : Fetch) (args : Args) : HandlerOut :=
  handleGetRequest cfg fetch "/projects" args JSValue.nullv

def getProjectById (cfg : Config) (fetch : Fetch) (args : Args) : HandlerOut :=
  handleGetByIdRequest cfg fetch "/projects" (args.get "id") (args.get "expand")

def createProject (cfg : Config) (fetch : Fetch) (args : Args) : HandlerOut :=
  sendBody cfg fetch "/projects" "POST" "Error creating project: " (bodyOf args projectFields)

def updateProject (cfg : Config) (fetch : Fetch) (args : Args) : HandlerOut :=
  sendBody cfg fetch ("/projects/" ++ (args.get "id").render) "PUT"
    "Error updating project: " (bodyOf args projectFields)

def deleteProject (cfg : Config) (fetch : Fetch) (args : Args) : HandlerOut :=
  deleteHandler cfg fetch "/projects" "Project" "Error deleting project: " args

/-- `getProjectInsights` (lines 3085-3110): a plain `GET` on
`/projects/{id}/insights` with no query parameters. -/
def getProjectInsights (cfg : Config) (fetch : Fetch) (args : Args) : HandlerOut :=
  match makeRequest cfg fetch ("/projects/" ++ (args.get "id").render ++ "/insights") {} with
  | (.ok data, tr) => (.ok { content := [.text data.render] }, tr)
  | (.error e, tr) =>
    (.ok { content := [.text ("Error retrieving project insights: " ++ e.message)]
           isError := true }, tr)

def getUsers (cfg : Config) (fetch : Fetch) (args : Args) : HandlerOut :=
  handleGetRequest cfg fetch "/users" args JSValue.nullv

def getUserById (cfg : Config) (fetch : Fetch) (args : Args) : HandlerOut :=
  handleGetByIdRequest cfg fetch "/users" (args.get "id") (args.get "expand")

def createUser (cfg : Config) (fetch : Fetch) (args : Args) : HandlerOut :=
  sendBody cfg fetch "/users" "POST" "Error creating user: " (bodyOf args userCreateFields)

def updateUser (cfg : Config) (fetch : Fetch) (args : Args) : HandlerOut :=
  sendBody cfg fetch ("/users/" ++ (args.get "id").render) "PUT"
    "Error updating user: " (bodyOf args userUpdateFields)

def getTimeEntries (cfg : Config) (fetch : Fetch) (args : Args) : HandlerOut :=
  handleGetRequest cfg fetch "/times" args JSValue.nullv

def getTimeEntryById (cfg : Config) (fetch : Fetch) (args : Args) : HandlerOut :=
  handleGetByIdRequest cfg fetch "/times" (args.get "id") (args.get "expand")

def getContacts (cfg : Config) (fetch : Fetch) (args : Args) : HandlerOut :=
  handleGetRequest cfg fetch "/contacts" args JSValue.nullv

def getContactById (cfg : Config) (fetch : Fetch) (args : Args) : HandlerOut :=
  handleGetByIdRequest cfg fetch "/contacts" (args.get "id") (args.get "expand")

def createContact (cfg : Config) (fetch : Fetch) (args : Args) : HandlerOut :=
  sendBody cfg fetch "/contacts" "POST" "Error creating contact: " (contactCreateBody args)

def updateContact (cfg : Config) (fetch : Fetch) (args : Args) : HandlerOut :=
  sendBody cfg fetch ("/contacts/" ++ (args.get "id").render) "PUT"
    "Error updating contact: " (contactUpdateBody args)

def deleteContact (cfg : Config) (fetch : Fetch) (args : Args) : HandlerOut :=
  deleteHandler cfg fetch "/contacts" "Contact" "Error deleting contact: " args

def getCustomers (cfg : Config) (fetch : Fetch) (args : Args) : HandlerOut :=
  handleGetRequest cfg fetch "/customers" args JSValue.nullv

def getCustomerById (cfg : Config) (fetch : Fetch) (args : Args) : HandlerOut :=
  handleGetByIdRequest cfg fetch "/customers" (args.get "id") (args.get "expand")

def createCustomer (cfg : Config) (fetch : Fetch) (args : Args) : HandlerOut :=
  sendBody cfg fetch "/customers" "POST" "Error creating customer: " (bodyOf args customerFields)

def updateCustomer (cfg : Config) (fetch : Fetch) (args : Args) : HandlerOut :=
  sendBody cfg fetch ("/customers/" ++ (args.get "id").render) "PUT"
    "Error updating customer: " (bodyOf args customerFields)

def deleteCustomer (cfg : Config) (fetch : Fetch) (args : Args) : HandlerOut :=
  deleteHandler cfg fetch "/customers" "Customer" "Error deleting customer: " args

def getTasks (cfg : Config) (fetch : Fetch) (args : Args) : HandlerOut :=
  handleGetRequest cfg fetch "/tasks" args JSValue.nullv

def getTaskById (cfg : Config) (fetch : Fetch) (args : Args) : HandlerOut :=
  handleGetByIdRequest cfg fetch "/tasks" (args.get "id") (args.get "expand")

def getInvoices (cfg : Config) (fetch : Fetch) (args : Args) : HandlerOut :=
  handleGetRequest cfg fetch "/invoices" args JSValue.nullv

def getInvoiceById (cfg : Config) (fetch : Fetch) (args : Args) : HandlerOut :=
  handleGetByIdRequest cfg fetch "/invoices" (args.get "id") (args.get "expand")

def getExpenses (cfg : Config) (fetch : Fetch) (args : Args) : HandlerOut :=
  handleGetRequest cfg fetch "/expenses" args JSValue.nullv

def getExpenseById (cfg : Config) (fetch : Fetch) (args : Args) : HandlerOut :=
  handleGetByIdRequest cfg fetch "/expenses" (args.get "id") (args.get "expand")

def createExpense (cfg : Config) (fetch : Fetch) (args : Args) : HandlerOut :=
  sendBody cfg fetch "/expenses" "POST" "Error creating expense: " (bodyOf args expenseFields)

def updateExpense (cfg : Config) (fetch : Fetch) (args : Args) : HandlerOut :=
  sendBody cfg fetch ("/expenses/" ++ (args.get "id").render) "PUT"
    "Error updating expense: " (bodyOf args expenseFields)

def deleteExpense (cfg : Config) (fetch : Fetch) (args : Args) : HandlerOut :=
  deleteHandler cfg fetch "/expenses" "Expense" "Error deleting expense: " args

def updateExpenseStatus (cfg : Config) (fetch : Fetch) (args : Args) : HandlerOut :=
  sendBody cfg fetch "/expenses/status" "PUT" "Error updating expense status: "
    (bodyOf args ["message", "expenses", "status"])

def updateExpenseClientStatus (cfg : Config) (fetch : Fetch) (args : Args) : HandlerOut :=
  sendBody cfg fetch "/expenses/clientStatus" "PUT" "Error updating expense client status: "
    (bodyOf args ["clientStatus", "message", "expenses"])

def getExpenseStatusHistory (cfg : Config) (fetch : Fetch) (args : Args) : HandlerOut :=
  statusHistoryHandler cfg fetch "/expenses" "Error retrieving expense status history: " args

def getMileage (cfg : Config) (fetch : Fetch) (args : Args) : HandlerOut :=
  handleGetRequest cfg fetch "/mileage" args JSValue.nullv

def getMileageById (cfg : Config) (fetch : Fetch) (args : Args) : HandlerOut :=
  handleGetByIdRequest cfg fetch "/mileage" (args.get "id") (args.get "expand")

def createMileage (cfg : Config) (fetch : Fetch) (args : Args) : HandlerOut :=
  sendBody cfg fetch "/mileage" "POST" "Error creating mileage: " (bodyOf args mileageFields)

def updateMileage (cfg : Config) (fetch : Fetch) (args : Args) : HandlerOut :=
  sendBody cfg fetch ("/mileage/" ++ (args.get "id").render) "PUT"
    "Error updating mileage: " (bodyOf args mileageFields)

def deleteMileage (cfg : Config) (fetch : Fetch) (args : Args) : HandlerOut :=
  deleteHandler cfg fetch "/mileage" "Mileage" "Error deleting mileage: " args

def updateMileageStatus (cfg : Config) (fetch : Fetch) (args : Args) : HandlerOut :=
  sendBody cfg fetch "/mileage/status" "PUT" "Error updating mileage status: "
    (bodyOf args ["message", "mileages", "status"])

def updateMileageClientStatus (cfg : Config) (fetch : Fetch) (args : Args) : HandlerOut :=
  sendBody cfg fetch "/mileage/clientStatus" "PUT" "Error updating mileage client status: "
    (bodyOf args ["clientStatus", "message", "mileages"])

def getMileageStatusHistory (cfg : Config) (fetch : Fetch) (args : Args) : HandlerOut :=
  statusHistoryHandler cfg fetch "/mileage" "Error retrieving mileage status history: " args

def getMileageVehicles (cfg : Config) (fetch : Fetch) (args : Args) : HandlerOut :=
  handleGetRequest cfg fetch "/mileageVehicles" args JSValue.nullv

def getMileageVehicleById (cfg : Config) (fetch : Fetch) (args : Args) : HandlerOut :=
  handleGetByIdRequest cfg fetch "/mileageVehicles" (args.get "id") (args.get "expand")

def getTags (cfg : Config) (fetch : Fetch) (args : Args) : HandlerOut :=
  handleGetRequest cfg fetch "/tags" args JSValue.nullv

def getTagById (cfg : Config) (fetch : Fetch) (args : Args) : HandlerOut :=
  handleGetByIdRequest cfg fetch "/tags" (args.get "id") (args.get "expand")

/-! ## Operation Dispatcher (source: `CallToolRequestSchema` handler,
lines 2665-2797) -/

/-- The dispatcher's catch clause: a thrown `McpError` is re-thrown as-is,
anything else is wrapped as `Tool execution failed: ...` (lines 2788-2796).
Handlers themselves catch every executor failure internally, so the only
exception a handler can leak is a non-`McpError` one. -/
def wrapHandler (out : HandlerOut) : Except McpError ToolResult × List Request :=
  match out with
  | (.ok r, tr) => (.ok r, tr)
  | (.error msg, tr) => (.error ⟨.InternalError, "Tool execution failed: " ++ msg⟩, tr)

/-- Source dispatcher switch (lines 2669-2787): the full static catalog of
operation names; an unknown name throws
`McpError(MethodNotFound, "Unknown tool: <name>")` without touching the
network. -/
def dispatch (cfg : Config) (fetch : Fetch) (name : String) (args : Args) :
    Except McpError ToolResult × List Request :=
  match name with
  | "get_projects" => wrapHandler (getProjects cfg fetch args)
  | "get_project_by_id" => wrapHandler (getProjectById cfg fetch args)
  | "create_project" => wrapHandler (createProject cfg fetch args)
  | "update_project" => wrapHandler (updateProject cfg fetch args)
  | "delete_project" => wrapHandler (deleteProject cfg fetch args)
  | "get_project_insights" => wrapHandler (getProjectInsights cfg fetch args)
  | "get_users" => wrapHandler (getUsers cfg fetch args)
  | "get_user_by_id" => wrapHandler (getUserById cfg fetch args)
  | "create_user" => wrapHandler (createUser cfg fetch args)
  | "update_user" => wrapHandler (updateUser cfg fetch args)
  | "get_time_entries" => wrapHandler (getTimeEntries cfg fetch args)
  | "get_time_entry_by_id" => wrapHandler (getTimeEntryById cfg fetch args)
  | "get_contacts" => wrapHandler (getContacts cfg fetch args)
  | "get_contact_by_id" => wrapHandler (getContactById cfg fetch args)
  | "create_contact" => wrapHandler (createContact cfg fetch args)
  | "update_contact" => wrapHandler (updateContact cfg fetch args)
  | "delete_contact" => wrapHandler (deleteContact cfg fetch args)
  | "get_customers" => wrapHandler (getCustomers cfg fetch args)
  | "get_customer_by_id" => wrapHandler (getCustomerById cfg fetch args)
  | "create_customer" => wrapHandler (createCustomer cfg fetch args)
  | "update_customer" => wrapHandler (updateCustomer cfg fetch args)
  | "delete_customer" => wrapHandler (deleteCustomer cfg fetch args)
  | "get_tasks" => wrapHandler (getTasks cfg fetch args)
  | "get_task_by_id" => wrapHandler (getTaskById cfg fetch args)
  | "get_invoices" => wrapHandler (getInvoices cfg fetch args)
  | "get_invoice_by_id" => wrapHandler (getInvoiceById cfg fetch args)
  | "get_expenses" => wrapHandler (getExpenses cfg fetch args)
  | "get_expense_by_id" => wrapHandler (getExpenseById cfg fetch args)
  | "create_expense" => wrapHandler (createExpense cfg fetch args)
  | "update_expense" => wrapHandler (updateExpense cfg fetch args)
  | "delete_expense" => wrapHandler (deleteExpense cfg fetch args)
  | "update_expense_status" => wrapHandler (updateExpenseStatus cfg fetch args)
  | "update_expense_client_status" => wrapHandler (updateExpenseClientStatus cfg fetch args)
  | "get_expense_status_history" => wrapHandler (getExpenseStatusHistory cfg fetch args)
  | "get_mileage" => wrapHandler (getMileage cfg fetch args)
  | "get_mileage_by_id" => wrapHandler (getMileageById cfg fetch args)
  | "create_mileage" => wrapHandler (createMileage cfg fetch args)
  | "update_mileage" => wrapHandler (updateMileage cfg fetch args)
  | "delete_mileage" => wrapHandler (deleteMileage cfg fetch args)
  | "update_mileage_status" => wrapHandler (updateMileageStatus cfg fetch args)
  | "update_mileage_client_status" => wrapHandler (updateMileageClientStatus cfg fetch args)
  | "get_mileage_status_history" => wrapHandler (getMileageStatusHistory cfg fetch args)
  | "get_mileage_vehicles" => wrapHandler (getMileageVehicles cfg fetch args)
  | "get_mileage_vehicle_by_id" => wrapHandler (getMileageVehicleById cfg fetch args)
  | "get_tags" => wrapHandler (getTags cfg fetch args)
  | "get_tag_by_id" => wrapHandler (getTagById cfg fetch args)
  | _ => (.error ⟨.MethodNotFound, "Unknown tool: " ++ name⟩, [])

/-- The static operation catalog: exactly the case labels of the dispatcher
switch. -/
def knownToolNames : List String :=
  ["get_projects", "get_project_by_id", "create_project", "update_project",
   "delete_project", "get_project_insights", "get_users", "get_user_by_id",
   "create_user", "update_user", "get_time_entries", "get_time_entry_by_id",
   "get_contacts", "get_contact_by_id", "create_contact", "update_contact",
   "delete_contact", "get_customers", "get_customer_by_id", "create_customer",
   "update_customer", "delete_customer", "get_tasks", "get_task_by_id",
   "get_invoices", "get_invoice_by_id", "get_expenses", "get_expense_by_id",
   "create_expense", "update_expense", "delete_expense", "update_expense_status",
   "update_expense_client_status", "get_expense_status_history", "get_mileage",
   "get_mileage_by_id", "create_mileage", "update_mileage", "delete_mileage",
   "update_mileage_status", "update_mileage_client_status",
   "get_mileage_status_history", "get_mileage_vehicles",
   "get_mileage_vehicle_by_id", "get_tags", "get_tag_by_id"]

/-! ## String helper lemmas -/

theorem str_append_eq_empty_iff (s t : String) : s ++ t = "" ↔ s = "" ∧ t = "" := by
  constructor
  · intro h
    have hd := congrArg String.data h
    rw [String.data_append] at hd
    rcases List.append_eq_nil.mp hd with ⟨h1, h2⟩
    exact ⟨String.ext h1, String.ext h2⟩
  · rintro ⟨rfl, rfl⟩
    rfl

theorem str_append_ne_empty_left (s t : String) (h : s ≠ "") : s ++ t ≠ "" := by
  intro hc
  exact h ((str_append_eq_empty_iff s t).mp hc).1

theorem toDigitsCore_ne_nil (b : Nat) :
    ∀ (f n : Nat) (l : List Char), l ≠ [] → Nat.toDigitsCore b f n l ≠ [] := by
  intro f
  induction f with
  | zero => intro n l h; simpa [Nat.toDigitsCore] using h
  | succ f ih =>
    intro n l h
    simp only [Nat.toDigitsCore]
    split
    · simp
    · exact ih _ _ (by simp)

theorem natRepr_ne_empty (n : Nat) : Nat.repr n ≠ "" := by
  intro h
  have hd : (Nat.toDigits 10 n).asString.data = [] := by
    rw [show (Nat.toDigits 10 n).asString = Nat.repr n from rfl, h]
  have hnil : Nat.toDigits 10 n = [] := by
    simpa [List.asString] using hd
  revert hnil
  simp only [Nat.toDigits, Nat.toDigitsCore]
  split
  · simp
  · exact toDigitsCore_ne_nil 10 _ _ _ (by simp)

theorem intToString_ne_empty (n : Int) : toString n ≠ "" := by
  cases n with
  | ofNat m => exact natRepr_ne_empty m
  | negSucc m =>
    show "-" ++ toString (m + 1) ≠ ""
    intro h
    have hd := congrArg String.data h
    simp [String.data_append] at hd

/-- A truthy JavaScript value renders to a non-empty string (the fact that
makes every selected filter fragment non-empty). -/
theorem JSValue.render_ne_empty_of_truthy (v : JSValue) (h : v.truthy = true) :
    v.render ≠ "" := by
  cases v with
  | undef => simp [truthy] at h
  | nullv => simp [truthy] at h
  | boolV b =>
    cases b with
    | false => simp [truthy] at h
    | true => simp [render]
  | numV n => exact intToString_ne_empty n
  | strV s => simpa [truthy] using h

/-! ## The Filter Composer as a join of selected fragments -/

/-- Fragments joined by the ` and ` separator. -/
def andJoin : List String → String
  | [] => ""
  | [f] => f
  | f :: rest => f ++ " and " ++ andJoin rest

/-- The seven (guard, fragment) pairs of `buildFilterExpression`, in its
fixed source order. -/
def filterSources (args : Args) : List (Bool × String) :=
  [((args.get "active_only").truthy, "active eq true"),
   ((args.get "user_id").truthy, "user/id eq " ++ (args.get "user_id").render),
   ((args.get "project_id").truthy, "project/id eq " ++ (args.get "project_id").render),
   ((args.get "customer_id").truthy, "customer/id eq " ++ (args.get "customer_id").render),
   ((args.get "from_date").truthy, "date ge " ++ (args.get "from_date").render),
   ((args.get "to_date").truthy, "date le " ++ (args.get "to_date").render),
   ((args.get "filter").truthy, (args.get "filter").render)]

/-- The fragments of the truthy filter sources, in the fixed source order. -/
def filterFragments (args : Args) : List String :=
  ((filterSources args).filter fun p => p.1).map fun p => p.2

/-- How many of the seven filter sources are truthy. -/
def numFilterSources (args : Args) : Nat :=
  ((filterSources args).filter fun p => p.1).length

/-- The composer's accumulator loop over a list of (guard, fragment)
pairs. -/
def applyFilterSources (acc : String) : List (Bool × String) → String
  | [] => acc
  | p :: rest => applyFilterSources (if p.1 then addAnd acc p.2 else acc) rest

theorem buildFilterExpression_eq_apply (args : Args) :
    buildFilterExpression args = applyFilterSources "" (filterSources args) := rfl

theorem andJoin_cons_cons (f g : String) (rest : List String) :
    andJoin (f :: g :: rest) = f ++ " and " ++ andJoin (g :: rest) := rfl

theorem andJoin_ne_empty (l : List String) (hl : ∀ s ∈ l, s ≠ "") (hne : l ≠ []) :
    andJoin l ≠ "" := by
  match l with
  | [] => exact absurd rfl hne
  | [f] => exact hl f (by simp)
  | f :: g :: rest =>
    rw [andJoin_cons_cons]
    exact str_append_ne_empty_left _ _ (str_append_ne_empty_left _ _ (hl f (by simp)))

theorem andJoin_snoc (l : List String) (f : String) (hne : l ≠ []) :
    andJoin (l ++ [f]) = andJoin l ++ " and " ++ f := by
  induction l with
  | nil => exact absurd rfl hne
  | cons a rest ih =>
    cases rest with
    | nil => rfl
    | cons b rest2 =>
      calc andJoin ((a :: b :: rest2) ++ [f])
          = a ++ " and " ++ andJoin ((b :: rest2) ++ [f]) :=
            andJoin_cons_cons a b (rest2 ++ [f])
        _ = a ++ " and " ++ (andJoin (b :: rest2) ++ " and " ++ f) := by
            rw [ih (by simp)]
        _ = andJoin (a :: b :: rest2) ++ " and " ++ f := by
            rw [andJoin_cons_cons a b rest2, ← String.append_assoc, ← String.append_assoc]

theorem addAnd_andJoin (l : List String) (hl : ∀ s ∈ l, s ≠ "") (f : String) :
    addAnd (andJoin l) f = andJoin (l ++ [f]) := by
  cases l with
  | nil => rfl
  | cons a rest =>
    rw [andJoin_snoc _ _ (by simp), addAnd,
      if_neg (andJoin_ne_empty _ hl (by simp))]

theorem applyFilterSources_join :
    ∀ (l : List (Bool × String)) (accl : List String),
      (∀ s ∈ accl, s ≠ "") → (∀ p ∈ l, p.1 = true → p.2 ≠ "") →
      applyFilterSources (andJoin accl) l
        = andJoin (accl ++ ((l.filter fun p => p.1).map fun p => p.2)) := by
  intro l
  induction l with
  | nil => intro accl _ _; simp [applyFilterSources]
  | cons p rest ih =>
    intro accl haccl hl
    cases hp : p.1 with
    | false =>
      have : applyFilterSources (andJoin accl) (p :: rest)
          = applyFilterSources (andJoin accl) rest := by
        simp [applyFilterSources, hp]
      rw [this, ih accl haccl (fun q hq => hl q (by simp [hq])),
        List.filter_cons, hp]
      simp
    | true =>
      have hf : p.2 ≠ "" := hl p (by simp) hp
      have step : applyFilterSources (andJoin accl) (p :: rest)
          = applyFilterSources (andJoin (accl ++ [p.2])) rest := by
        simp [applyFilterSources, hp, addAnd_andJoin accl haccl p.2]
      rw [step, ih (accl ++ [p.2])
        (by intro s hs; rcases List.mem_append.mp hs with h | h
            · exact haccl s h
            · simpa using (by simpa using h) ▸ hf)
        (fun q hq => hl q (by simp [hq])), List.filter_cons, hp]
      simp

theorem filterSources_truthy_ne_empty (args : Args) :
    ∀ p ∈ filterSources args, p.1 = true → p.2 ≠ "" := by
  intro p hp ht
  simp only [filterSources, List.mem_cons, List.mem_singleton] at hp
  rcases hp with rfl | rfl | rfl | rfl | rfl | rfl | rfl | h
  · simp
  · exact str_append_ne_empty_left _ _ (by simp)
  · exact str_append_ne_empty_left _ _ (by simp)
  · exact str_append_ne_empty_left _ _ (by simp)
  · exact str_append_ne_empty_left _ _ (by simp)
  · exact str_append_ne_empty_left _ _ (by simp)
  · exact JSValue.render_ne_empty_of_truthy _ ht
  · simp at h

theorem filterFragments_ne_empty (args : Args) :
    ∀ s ∈ filterFragments args, s ≠ "" := by
  intro s hs
  simp only [filterFragments, List.mem_map, List.mem_filter] at hs
  rcases hs with ⟨p, ⟨hp, hpt⟩, rfl⟩
  exact filterSources_truthy_ne_empty args p hp (by simpa using hpt)

theorem buildFilterExpression_eq_andJoin (args : Args) :
    buildFilterExpression args = andJoin (filterFragments args) := by
  rw [buildFilterExpression_eq_apply]
  have := applyFilterSources_join (filterSources args) [] (by simp)
    (filterSources_truthy_ne_empty args)
  simpa [filterFragments, andJoin] using this

theorem filterFragments_length (args : Args) :
    (filterFragments args).length = numFilterSources args := by
  simp [filterFragments, numFilterSources]

theorem buildFilterExpression_empty_iff (args : Args) :
    buildFilterExpression args = "" ↔ numFilterSources args = 0 := by
  constructor
  · intro h
    have hnil : filterFragments args = [] := by
      by_contra hne
      exact andJoin_ne_empty _ (filterFragments_ne_empty args) hne
        ((buildFilterExpression_eq_andJoin args) ▸ h)
    rw [← filterFragments_length, hnil]
    rfl
  · intro h
    have hnil : filterFragments args = [] :=
      List.length_eq_zero.mp ((filterFragments_length args) ▸ h)
    rw [buildFilterExpression_eq_andJoin, hnil]
    rfl

/-- Number of (possibly overlapping) occurrences of `pat` in a character
list: one test at every suffix start. -/
def countOccs (pat : List Char) : List Char → Nat
  | [] => 0
  | c :: rest => (if pat.isPrefixOf (c :: rest) then 1 else 0) + countOccs pat rest

/-- C1 (amended): for every argument bag the Filter Composer returns exactly
the fragments of its truthy filter sources — in the fixed order active-flag,
user, project, customer, from-date, to-date, raw filter — joined by the
` and ` separator (`andJoin`); the number of joined fragments is the number
of truthy sources, and the result is empty exactly when no source is truthy.
(The original string-level count of ` and ` occurrences being N−1 holds only
when no fragment itself contains the separator; see the counterexample.) -/
theorem filter_composer_fixed_order_join (args : Args) :
    buildFilterExpression args = andJoin (filterFragments args)
      ∧ (filterFragments args).length = numFilterSources args
      ∧ (buildFilterExpression args = "" ↔ numFilterSources args = 0) :=
  ⟨buildFilterExpression_eq_andJoin args, filterFragments_length args,
    buildFilterExpression_empty_iff args⟩

/-- C1 counterexample: with exactly one filter source present (a raw
`filter` expression that itself contains ` and `), the composed filter
contains one occurrence of ` and `, not N − 1 = 0 — so the claimed
occurrence count does not hold for every argument bag. -/
theorem filter_composer_count_counterexample :
    numFilterSources [("filter", JSValue.strV "billable eq true and locked eq true")] = 1
      ∧ ¬ (countOccs " and ".data
            (buildFilterExpression
              [("filter", JSValue.strV "billable eq true and locked eq true")]).data
          = 1 - 1) := by
  decide

/-! ## The Authenticated Request Executor's header injection (claim C2) -/

theorem makeRequest_trace (cfg : Config) (fetch : Fetch) (endpoint : String)
    (opts : ReqOptions) (h : cfg.apiKey ≠ "") :
    (makeRequest cfg fetch endpoint opts).2 = [reqOf cfg endpoint opts] := by
  unfold makeRequest
  rw [if_neg h]
  cases fetch (reqOf cfg endpoint opts) with
  | netFail msg => rfl
  | resp r =>
    by_cases hok : r.ok = false
    · simp [hok]
    · cases hj : r.jsonBody <;> simp [hok, hj]

theorem mem_makeRequest_trace (cfg : Config) (fetch : Fetch) (endpoint : String)
    (opts : ReqOptions) (req : Request) (h : cfg.apiKey ≠ "")
    (hmem : req ∈ (makeRequest cfg fetch endpoint opts).2) :
    req = reqOf cfg endpoint opts := by
  rw [makeRequest_trace cfg fetch endpoint opts h] at hmem
  simpa using hmem

theorem lookup_filter_of_pred (p : String × String → Bool) (k : String)
    (hk : ∀ v, p (k, v) = true) :
    ∀ l : List (String × String), List.lookup k (l.filter p) = List.lookup k l := by
  intro l
  induction l with
  | nil => rfl
  | cons a rest ih =>
    obtain ⟨a1, a2⟩ := a
    by_cases hak : k = a1
    · subst hak
      simp [List.filter_cons, hk a2, List.lookup]
    · have hbeq : (k == a1) = false := beq_eq_false_iff_ne.mpr hak
      by_cases hpa : p (a1, a2) = true
      · simp [List.filter_cons, hpa, List.lookup, hbeq, ih]
      · simp [List.filter_cons, hpa, List.lookup, hbeq, ih]

/-- C2 (amended): caller-supplied headers are spread after the fixed header
set (line 55-61), so on key conflicts the caller wins; when the caller
supplies no entry under the exact keys `api-key` and `api-version`, every
request `makeRequest` issues carries the configured credential and the fixed
version value, and caller-supplied entries under other keys are passed
through unchanged. -/
theorem makeRequest_headers_injected (cfg : Config) (fetch : Fetch) (endpoint : String)
    (opts : ReqOptions) (req : Request)
    (hkey : cfg.apiKey ≠ "")
    (hnk : List.lookup "api-key" opts.headers = none)
    (hnv : List.lookup "api-version" opts.headers = none)
    (hmem : req ∈ (makeRequest cfg fetch endpoint opts).2) :
    List.lookup "api-key" req.headers = some cfg.apiKey
      ∧ List.lookup "api-version" req.headers = some "2.0"
      ∧ ∀ k, k ≠ "api-key" → k ≠ "Content-Type" → k ≠ "Accept" → k ≠ "api-version" →
          List.lookup k req.headers = List.lookup k opts.headers := by
  have hreq := mem_makeRequest_trace cfg fetch endpoint opts req hkey hmem
  subst hreq
  refine ⟨?_, ?_, ?_⟩
  · simp [reqOf, mergeHeaders, fixedHeaders, List.lookup, hnk]
  · simp [reqOf, mergeHeaders, fixedHeaders, List.lookup, hnv]
  · intro k h1 h2 h3 h4
    have b1 : (k == "api-key") = false := beq_eq_false_iff_ne.mpr h1
    have b2 : (k == "Content-Type") = false := beq_eq_false_iff_ne.mpr h2
    have b3 : (k == "Accept") = false := beq_eq_false_iff_ne.mpr h3
    have b4 : (k == "api-version") = false := beq_eq_false_iff_ne.mpr h4
    show List.lookup k (mergeHeaders cfg.apiKey opts.headers) = List.lookup k opts.headers
    rw [mergeHeaders]
    rw [List.lookup_append]
    simp only [fixedHeaders, List.map, List.lookup, b1, b2, b3, b4]
    rw [lookup_filter_of_pred _ k ?side opts.headers]
    · rfl
    · intro v
      simp [fixedHeaders, List.contains, h1, h2, h3, h4]

/-- A network oracle whose fetch always rejects (used to instantiate
theorems at concrete inputs; which outcome it returns is irrelevant to the
header and trace statements). -/
def offlineFetch : Fetch := fun _ => FetchOutcome.netFail "offline"

/-- Caller options that supply their own `api-key` header. -/
def headerOverrideOpts : ReqOptions := { headers := [("api-key", "attacker-key")] }

/-- C2 counterexample: with configured credential `secret-key` and a
caller-supplied `api-key` header, the one request actually issued carries
the caller's value, not the configured credential — the fixed header set can
be overridden, refuting the claim. -/
theorem makeRequest_header_override_counterexample :
    ((makeRequest ⟨"secret-key"⟩ offlineFetch "/projects" headerOverrideOpts).2.map
        fun r => List.lookup "api-key" r.headers) = [some "attacker-key"]
      ∧ (some "attacker-key" : Option String) ≠ some "secret-key" :=
  ⟨rfl, by decide⟩

/-- Witness for C2 (amended) at a concrete input: a caller header under a
fresh key leaves the credential and version headers intact. -/
theorem makeRequest_headers_injected_witness :
    List.lookup "api-key"
        (reqOf ⟨"secret-key"⟩ "/projects" { headers := [("X-Custom", "1")] }).headers
      = some "secret-key"
      ∧ List.lookup "api-version"
          (reqOf ⟨"secret-key"⟩ "/projects" { headers := [("X-Custom", "1")] }).headers
        = some "2.0" := by
  have h := makeRequest_headers_injected ⟨"secret-key"⟩ offlineFetch "/projects"
    { headers := [("X-Custom", "1")] }
    (reqOf ⟨"secret-key"⟩ "/projects" { headers := [("X-Custom", "1")] })
    (by decide) (by decide) (by decide) (List.mem_singleton_self _)
  exact ⟨h.1, h.2.1⟩

/-! ## Executor failure classification (claims C7, C8, C10) -/

/-- C7: for every endpoint, verb and body, a missing credential makes
`makeRequest` fail with the configuration error before any network
activity — the request trace is empty and the outcome does not depend on
the network oracle at all. -/
theorem makeRequest_no_credential (cfg : Config) (fetch : Fetch) (endpoint : String)
    (opts : ReqOptions) (h : cfg.apiKey = "") :
    makeRequest cfg fetch endpoint opts
      = (.error ⟨.InvalidRequest, "TIMECHIMP_API_KEY environment variable is required"⟩, []) := by
  unfold makeRequest
  rw [if_pos h]

/-- Witness for C7 at a concrete input. -/
theorem makeRequest_no_credential_witness :
    makeRequest ⟨""⟩ offlineFetch "/projects" {}
      = (.error ⟨.InvalidRequest, "TIMECHIMP_API_KEY environment variable is required"⟩, []) :=
  makeRequest_no_credential ⟨""⟩ offlineFetch "/projects" {} rfl

/-- C8: on a non-success HTTP status the executor fails with the upstream
error whose message carries the numeric status, the status text and the
response body text, having issued exactly the one request. -/
theorem makeRequest_upstream_error (cfg : Config) (fetch : Fetch) (endpoint : String)
    (opts : ReqOptions) (r : FetchResponse)
    (hkey : cfg.apiKey ≠ "")
    (hresp : fetch (reqOf cfg endpoint opts) = FetchOutcome.resp r)
    (hok : r.ok = false) :
    makeRequest cfg fetch endpoint opts
      = (.error ⟨.InternalError,
          "TimeChimp API error: " ++ toString r.status ++ " " ++ r.statusText
            ++ " - " ++ r.bodyText⟩,
         [reqOf cfg endpoint opts]) := by
  unfold makeRequest
  rw [if_neg hkey, hresp]
  simp [hok]

/-- A network oracle answering every request with a 404 and a body. -/
def fetch404 : Fetch := fun _ =>
  FetchOutcome.resp
    { ok := false, status := 404, statusText := "Not Found",
      bodyText := "project missing", jsonBody := .error "x" }

/-- Witness for C8: a 404 yields the upstream error containing `404` and the
original body text. -/
theorem makeRequest_upstream_error_witness :
    makeRequest ⟨"key-1"⟩ fetch404 "/projects/999" {}
      = (.error ⟨.InternalError, "TimeChimp API error: 404 Not Found - project missing"⟩,
         [reqOf ⟨"key-1"⟩ "/projects/999" {}]) :=
  makeRequest_upstream_error ⟨"key-1"⟩ fetch404 "/projects/999" {} _ (by decide) rfl rfl

/-- C10: a success HTTP status whose body fails to parse as JSON (including
an empty body) is not a success: the parse failure is re-raised as the
generic "Request failed" error — the same classification and message a
network/transport failure with the same underlying message receives. -/
theorem makeRequest_parse_failure (cfg : Config) (fetch : Fetch) (endpoint : String)
    (opts : ReqOptions) (r : FetchResponse) (m : String)
    (hkey : cfg.apiKey ≠ "")
    (hresp : fetch (reqOf cfg endpoint opts) = FetchOutcome.resp r)
    (hok : r.ok = true)
    (hjson : r.jsonBody = .error m) :
    makeRequest cfg fetch endpoint opts
      = (.error ⟨.InternalError, "Request failed: " ++ m⟩, [reqOf cfg endpoint opts])
      ∧ ∀ fetch2 : Fetch, fetch2 (reqOf cfg endpoint opts) = FetchOutcome.netFail m →
          makeRequest cfg fetch2 endpoint opts
            = (.error ⟨.InternalError, "Request failed: " ++ m⟩, [reqOf cfg endpoint opts]) := by
  constructor
  · unfold makeRequest
    rw [if_neg hkey, hresp]
    simp [hok, hjson]
  · intro fetch2 h2
    unfold makeRequest
    rw [if_neg hkey, h2]

/-- A network oracle answering every request with `200 OK` and an empty,
unparseable body (what a remote `DELETE` typically returns). -/
def fetchEmptyBody : Fetch := fun _ =>
  FetchOutcome.resp
    { ok := true, status := 200, statusText := "OK",
      bodyText := "", jsonBody := .error "Unexpected end of JSON input" }

/-- Witness for C10: an accepted request with an empty body yields the
generic request failure. -/
theorem makeRequest_parse_failure_witness :
    makeRequest ⟨"key-1"⟩ fetchEmptyBody "/projects/42" { method := "DELETE" }
      = (.error ⟨.InternalError, "Request failed: Unexpected end of JSON input"⟩,
         [reqOf ⟨"key-1"⟩ "/projects/42" { method := "DELETE" }]) :=
  (makeRequest_parse_failure ⟨"key-1"⟩ fetchEmptyBody "/projects/42" { method := "DELETE" }
    _ "Unexpected end of JSON input" (by decide) rfl rfl rfl).1

/-! ## Dispatcher claims (C3, C4) -/

/-- C3: dispatching an operation name outside the static catalog yields the
`MethodNotFound` protocol error (the envelope the SDK reports for the
thrown `McpError`) and issues no network request, for every configuration,
network oracle and argument bag. -/
theorem dispatch_unknown_tool (cfg : Config) (fetch : Fetch) (name : String) (args : Args)
    (h : name ∉ knownToolNames) :
    dispatch cfg fetch name args
      = (.error ⟨.MethodNotFound, "Unknown tool: " ++ name⟩, []) := by
  unfold dispatch
  split <;> first
    | rfl
    | simp_all [knownToolNames]

/-- Witness for C3: a concrete unknown name. -/
theorem dispatch_unknown_tool_witness :
    "get_widgets" ∉ knownToolNames
      ∧ dispatch ⟨"key-1"⟩ offlineFetch "get_widgets" []
          = (.error ⟨.MethodNotFound, "Unknown tool: get_widgets"⟩, []) :=
  ⟨by decide, dispatch_unknown_tool ⟨"key-1"⟩ offlineFetch "get_widgets" [] (by decide)⟩

theorem wrapHandler_trace (out : HandlerOut) : (wrapHandler out).2 = out.2 := by
  obtain ⟨res, tr⟩ := out
  cases res <;> rfl

theorem wrapHandler_ok_val (out : HandlerOut) (r : ToolResult) (h : out.1 = .ok r) :
    (wrapHandler out).1 = .ok r := by
  obtain ⟨res, tr⟩ := out
  cases res with
  | ok a => simpa [wrapHandler] using h
  | error m => exact absurd h (by simp)

theorem handleGetByIdRequest_wrapped (cfg : Config) (fetch : Fetch) (endpoint : String)
    (id expand : JSValue) :
    (∃ tr, (handleGetByIdRequest cfg fetch endpoint id expand).1 = Except.ok tr)
      ∧ (handleGetByIdRequest cfg fetch endpoint id expand).2
          = (makeRequest cfg fetch (getByIdEndpoint endpoint id expand) {}).2 := by
  unfold handleGetByIdRequest
  cases hm : makeRequest cfg fetch (getByIdEndpoint endpoint id expand) {} with
  | mk res tr =>
    cases res <;> simp [hm]

/-- C4 (the code at the failing input): dispatching `get_project_by_id`
with an argument bag lacking `id` (credential configured) performs a real
network call — `GET {base}/projects/undefined`, the missing id interpolated
as the string `"undefined"` — and returns an ordinary handler envelope, not
a protocol/validation error, for every network oracle. -/
theorem get_by_id_missing_id_hits_network (fetch : Fetch) :
    (dispatch ⟨"key-1"⟩ fetch "get_project_by_id" []).2
        = [reqOf ⟨"key-1"⟩ "/projects/undefined" {}]
      ∧ ∃ tr, (dispatch ⟨"key-1"⟩ fetch "get_project_by_id" []).1 = Except.ok tr := by
  have hd : dispatch ⟨"key-1"⟩ fetch "get_project_by_id" []
      = wrapHandler (handleGetByIdRequest ⟨"key-1"⟩ fetch "/projects" .undef .undef) := rfl
  obtain ⟨⟨tr, htr⟩, htrace⟩ :=
    handleGetByIdRequest_wrapped ⟨"key-1"⟩ fetch "/projects" .undef .undef
  constructor
  · rw [hd, wrapHandler_trace, htrace,
      show getByIdEndpoint "/projects" .undef .undef = "/projects/undefined" from rfl,
      makeRequest_trace _ _ _ _ (by decide)]
  · exact ⟨tr, by rw [hd, wrapHandler_ok_val _ tr htr]⟩

/-! ## Delete confirmation payloads (claim C9) -/

/-- C9: for every delete handler instance (delete_project, delete_contact,
delete_customer, delete_expense, delete_mileage are all `deleteHandler`
with their resource's path and label), a successfully completed underlying
request produces the success envelope whose payload is the textual
confirmation `"<label> <id> deleted successfully"` — independent of the
parsed remote body `j`. -/
theorem deleteHandler_success_confirmation (cfg : Config) (fetch : Fetch)
    (endpoint label errHead : String) (args : Args) (r : FetchResponse) (j : Json)
    (hkey : cfg.apiKey ≠ "")
    (hresp : fetch (reqOf cfg (endpoint ++ "/" ++ (args.get "id").render)
        { method := "DELETE" }) = FetchOutcome.resp r)
    (hok : r.ok = true)
    (hjson : r.jsonBody = .ok j) :
    deleteHandler cfg fetch endpoint label errHead args
      = (.ok { content :=
                 [.text (label ++ " " ++ (args.get "id").render ++ " deleted successfully")] },
         [reqOf cfg (endpoint ++ "/" ++ (args.get "id").render) { method := "DELETE" }]) := by
  have hm : makeRequest cfg fetch (endpoint ++ "/" ++ (args.get "id").render)
      { method := "DELETE" }
      = (.ok j, [reqOf cfg (endpoint ++ "/" ++ (args.get "id").render)
          { method := "DELETE" }]) := by
    unfold makeRequest
    rw [if_neg hkey, hresp]
    simp [hok, hjson]
  unfold deleteHandler
  rw [hm]

/-- A network oracle accepting every request with a parseable `null` body. -/
def fetchDeleteOk : Fetch := fun _ =>
  FetchOutcome.resp
    { ok := true, status := 200, statusText := "OK", bodyText := "null",
      jsonBody := .ok Json.nullJ }

/-- Witness for C9: the spec scenario
`dispatch("delete_project", {id: 42})` on success. -/
theorem deleteHandler_success_confirmation_witness :
    dispatch ⟨"key-1"⟩ fetchDeleteOk "delete_project" [("id", JSValue.numV 42)]
      = (.ok { content := [.text "Project 42 deleted successfully"] },
         [reqOf ⟨"key-1"⟩ "/projects/42" { method := "DELETE" }]) := by
  have h := deleteHandler_success_confirmation ⟨"key-1"⟩ fetchDeleteOk "/projects" "Project"
    "Error deleting project: " [("id", JSValue.numV 42)]
    ({ ok := true, status := 200, statusText := "OK", bodyText := "null",
       jsonBody := .ok Json.nullJ }) Json.nullJ (by decide) rfl rfl rfl
  show wrapHandler (deleteHandler ⟨"key-1"⟩ fetchDeleteOk "/projects" "Project"
    "Error deleting project: " [("id", JSValue.numV 42)]) = _
  rw [h]
  rfl

/-! ## Query-parameter key extraction (claims C5, C6) -/

/-- The values carried under key `k` in an ordered parameter list. -/
def keyVals (k : String) (ps : List (String × String)) : List String :=
  (ps.filter fun p => p.1 == k).map fun p => p.2

theorem keyVals_nil (k : String) : keyVals k [] = [] := rfl

theorem keyVals_append (k : String) (l1 l2 : List (String × String)) :
    keyVals k (l1 ++ l2) = keyVals k l1 ++ keyVals k l2 := by
  simp [keyVals]

theorem keyVals_single_ne (k k' v : String) (h : (k' == k) = false)
    (c : Prop) [Decidable c] :
    keyVals k (if c then [(k', v)] else []) = [] := by
  split <;> simp [keyVals, h]

theorem keyVals_single_eq (k v : String) (c : Prop) [Decidable c] :
    keyVals k (if c then [(k, v)] else []) = if c then [v] else [] := by
  split <;> simp [keyVals]

theorem keyVals_cons (k : String) (p : String × String) (l : List (String × String)) :
    keyVals k (p :: l) = if p.1 == k then p.2 :: keyVals k l else keyVals k l := by
  by_cases h : (p.1 == k) = true <;> simp [keyVals, List.filter_cons, h]

theorem keyVals_filter_out (k : String) :
    ∀ l : List (String × String), keyVals k (l.filter fun q => !(q.1 = k)) = [] := by
  intro l
  induction l with
  | nil => rfl
  | cons p rest ih =>
    rw [List.filter_cons]
    by_cases hpk : p.1 = k
    · rw [if_neg (by simp [hpk])]
      exact ih
    · rw [if_pos (by simp [hpk]), keyVals_cons, if_neg (by simp [hpk])]
      exact ih

theorem keyVals_filter_keep (k k' : String) (hkk : k' ≠ k) :
    ∀ l : List (String × String),
      keyVals k' (l.filter fun q => !(q.1 = k)) = keyVals k' l := by
  intro l
  induction l with
  | nil => rfl
  | cons p rest ih =>
    rw [List.filter_cons]
    by_cases hpk : p.1 = k
    · rw [if_neg (by simp [hpk]), ih, keyVals_cons,
        if_neg (by simp only [hpk, beq_iff_eq]; exact fun hc => hkk hc.symm)]
    · rw [if_pos (by simp [hpk]), keyVals_cons, keyVals_cons, ih]

theorem keyVals_setFirst_same (k v : String) :
    ∀ l : List (String × String), keyVals k (setFirst l k v) = [v] := by
  intro l
  induction l with
  | nil => simp [setFirst, keyVals]
  | cons p rest ih =>
    by_cases hpk : p.1 = k
    · rw [setFirst, if_pos hpk, keyVals_cons]
      rw [if_pos (by simp)]
      rw [keyVals_filter_out k rest]
    · rw [setFirst, if_neg hpk, keyVals_cons, if_neg (by simp [hpk])]
      exact ih

theorem keyVals_setFirst_ne (k k' v : String) (h : k' ≠ k) :
    ∀ l : List (String × String), keyVals k' (setFirst l k v) = keyVals k' l := by
  intro l
  induction l with
  | nil =>
    rw [setFirst, keyVals_cons, if_neg (by simp only [beq_iff_eq]; exact fun hc => h hc.symm)]
  | cons p rest ih =>
    by_cases hpk : p.1 = k
    · rw [setFirst, if_pos hpk, keyVals_cons,
        if_neg (by simp only [beq_iff_eq]; exact fun hc => h hc.symm),
        keyVals_filter_keep k k' h rest, keyVals_cons,
        if_neg (by simp only [hpk, beq_iff_eq]; exact fun hc => h hc.symm)]
    · rw [setFirst, if_neg hpk, keyVals_cons, keyVals_cons, ih]

theorem keyVals_single_ne2 (k k' v : String) (h : (k' == k) = false)
    (c : Prop) [Decidable c] :
    keyVals k (if c then [] else [(k', v)]) = [] := by
  split <;> simp [keyVals, h]

theorem keyVals_single_eq2 (k v : String) (c : Prop) [Decidable c] :
    keyVals k (if c then [] else [(k, v)]) = if c then [] else [v] := by
  split <;> simp [keyVals]

theorem countSegment_ok (v : JSValue) (h : v ≠ JSValue.nullv) :
    countSegment v = .ok (if v = JSValue.undef then [] else [("$count", v.render)]) := by
  cases v with
  | undef => rfl
  | nullv => exact absurd rfl h
  | boolV b => rfl
  | numV n => rfl
  | strV s => rfl

theorem countSegment_keyVals_ne (v : JSValue) (k : String) (hk : ("$count" == k) = false)
    (pc : List (String × String)) (h : countSegment v = .ok pc) :
    keyVals k pc = [] := by
  cases v with
  | nullv => exact absurd h (by simp [countSegment, JSValue.toStrE])
  | undef =>
    have : pc = [] := by simpa [countSegment] using h.symm
    simp [this, keyVals]
  | boolV b =>
    have : pc = [("$count", (JSValue.boolV b).render)] := by
      simpa [countSegment, JSValue.toStrE] using h.symm
    simp [this, keyVals, hk]
  | numV n =>
    have : pc = [("$count", (JSValue.numV n).render)] := by
      simpa [countSegment, JSValue.toStrE] using h.symm
    simp [this, keyVals, hk]
  | strV s =>
    have : pc = [("$count", (JSValue.strV s).render)] := by
      simpa [countSegment, JSValue.toStrE] using h.symm
    simp [this, keyVals, hk]

/-- C6 (amended): for every argument bag whose `count` is not `null`, the
Query Parameter Builder succeeds; `skip` is emitted exactly when present and
truthy (so `skip: 0` is omitted while `skip: 5` yields one skip parameter),
`count` exactly when it is not `undefined` (so `count: false` yields
`$count=false`), and `top` exactly when truthy — nothing is defaulted. A
`null` count is the one rejected input: it makes the builder throw a
`TypeError` (see the counterexample). -/
theorem buildQueryParams_skip_count (args : Args) (h : args.get "count" ≠ JSValue.nullv) :
    ∃ ps, buildQueryParams args = .ok ps
      ∧ keyVals "$skip" ps
          = (if (args.get "skip").truthy then [(args.get "skip").render] else [])
      ∧ keyVals "$count" ps
          = (if args.get "count" = JSValue.undef then [] else [(args.get "count").render])
      ∧ keyVals "$top" ps
          = (if (args.get "top").truthy then [(args.get "top").render] else []) := by
  have hc := countSegment_ok (args.get "count") h
  unfold buildQueryParams
  rw [hc]
  refine ⟨_, rfl, ?_, ?_, ?_⟩
  all_goals
    simp only [keyVals_append]
  · rw [keyVals_single_ne "$skip" "$top" _ (by decide),
      keyVals_single_eq "$skip",
      keyVals_single_ne2 "$skip" "$count" _ (by decide),
      keyVals_single_ne "$skip" "$expand" _ (by decide),
      keyVals_single_ne "$skip" "$orderby" _ (by decide),
      keyVals_single_ne "$skip" "$filter" _ (by decide)]
    simp
  · rw [keyVals_single_ne "$count" "$top" _ (by decide),
      keyVals_single_ne "$count" "$skip" _ (by decide),
      keyVals_single_eq2 "$count",
      keyVals_single_ne "$count" "$expand" _ (by decide),
      keyVals_single_ne "$count" "$orderby" _ (by decide),
      keyVals_single_ne "$count" "$filter" _ (by decide)]
    simp
  · rw [keyVals_single_eq "$top",
      keyVals_single_ne "$top" "$skip" _ (by decide),
      keyVals_single_ne2 "$top" "$count" _ (by decide),
      keyVals_single_ne "$top" "$expand" _ (by decide),
      keyVals_single_ne "$top" "$orderby" _ (by decide),
      keyVals_single_ne "$top" "$filter" _ (by decide)]
    simp

/-- C6 counterexample: `count: null` is defined (not `undefined`), yet the
builder does not emit it — the `count.toString()` call throws, so this one
input is rejected rather than emitted, refuting "count is emitted whenever
it is defined" and "no input is rejected". -/
theorem buildQueryParams_null_count_counterexample :
    buildQueryParams [("count", JSValue.nullv)]
        = .error "Cannot read properties of null (reading toString)"
      ∧ ∀ ps, buildQueryParams [("count", JSValue.nullv)] ≠ Except.ok ps := by
  refine ⟨rfl, ?_⟩
  intro ps hps
  rw [show buildQueryParams [("count", JSValue.nullv)]
      = .error "Cannot read properties of null (reading toString)" from rfl] at hps
  exact Except.noConfusion hps

/-- Witness for C6 (amended): `skip: 5` yields one `$skip=5`, `count: false`
yields `$count=false`, absent `top` is omitted. (`skip: 0` is covered by the
theorem's truthiness equivalence: `(numV 0).truthy = false`.) -/
theorem buildQueryParams_skip_count_witness :
    ∃ ps, buildQueryParams [("skip", JSValue.numV 5), ("count", JSValue.boolV false)]
        = .ok ps
      ∧ keyVals "$skip" ps = ["5"]
      ∧ keyVals "$count" ps = ["false"]
      ∧ keyVals "$top" ps = [] := by
  obtain ⟨ps, h1, h2, h3, h4⟩ := buildQueryParams_skip_count
    [("skip", JSValue.numV 5), ("count", JSValue.boolV false)] (by decide)
  exact ⟨ps, h1, by rw [h2]; decide, by rw [h3]; decide, by rw [h4]; decide⟩

theorem filter_not_truthy_of_empty (args : Args) (h : buildFilterExpression args = "") :
    (args.get "filter").truthy = false := by
  have h0 := (buildFilterExpression_empty_iff args).mp h
  by_contra hft
  rw [Bool.not_eq_false] at hft
  have hmem : ((args.get "filter").truthy, (args.get "filter").render) ∈ filterSources args := by
    simp [filterSources]
  have hmem2 : ((args.get "filter").truthy, (args.get "filter").render)
      ∈ (filterSources args).filter (fun p => p.1) :=
    List.mem_filter.mpr ⟨hmem, by simp [hft]⟩
  have hpos := List.length_pos.mpr (List.ne_nil_of_mem hmem2)
  rw [numFilterSources] at h0
  omega

theorem buildQueryParams_filter_orderby (args : Args) (params : List (String × String))
    (hbq : buildQueryParams args = .ok params) :
    keyVals "$filter" params
        = (if (args.get "filter").truthy then [(args.get "filter").render] else [])
      ∧ keyVals "$orderby" params
        = (if (args.get "orderby").truthy then [(args.get "orderby").render] else []) := by
  unfold buildQueryParams at hbq
  cases hcs : countSegment (args.get "count") with
  | error e => rw [hcs] at hbq; exact absurd hbq (by simp)
  | ok pc =>
    rw [hcs] at hbq
    simp only [Except.ok.injEq] at hbq
    subst hbq
    constructor
    · simp only [keyVals_append]
      rw [keyVals_single_ne "$filter" "$top" _ (by decide),
        keyVals_single_ne "$filter" "$skip" _ (by decide),
        countSegment_keyVals_ne _ _ (by decide) pc hcs,
        keyVals_single_ne "$filter" "$expand" _ (by decide),
        keyVals_single_ne "$filter" "$orderby" _ (by decide),
        keyVals_single_eq "$filter"]
      simp
    · simp only [keyVals_append]
      rw [keyVals_single_ne "$orderby" "$top" _ (by decide),
        keyVals_single_ne "$orderby" "$skip" _ (by decide),
        countSegment_keyVals_ne _ _ (by decide) pc hcs,
        keyVals_single_ne "$orderby" "$expand" _ (by decide),
        keyVals_single_eq "$orderby",
        keyVals_single_ne "$orderby" "$filter" _ (by decide)]
      simp

/-- C5: for every argument bag and default sort value, whenever the
parameter assembly of `handleGetRequest` succeeds, (i) a non-empty composed
filter ends up under the `$filter` key exactly once — replacing, not
duplicating, any raw `filter` parameter the builder emitted; (ii) with an
empty composed filter no `$filter` parameter appears at all; and (iii) the
resource default sort is added only when the caller supplied no `orderby`:
a caller-supplied `orderby` is the only `$orderby` value, otherwise the
default (when truthy) is, and no `$orderby` appears when neither exists. -/
theorem handleGetParams_merge (args : Args) (dOB : JSValue) (ps : List (String × String))
    (h : handleGetParams args dOB = .ok ps) :
    (buildFilterExpression args ≠ "" →
        keyVals "$filter" ps = [buildFilterExpression args])
      ∧ (buildFilterExpression args = "" → keyVals "$filter" ps = [])
      ∧ ((args.get "orderby").truthy = true →
          keyVals "$orderby" ps = [(args.get "orderby").render])
      ∧ ((args.get "orderby").truthy = false → dOB.truthy = true →
          keyVals "$orderby" ps = [dOB.render])
      ∧ ((args.get "orderby").truthy = false → dOB.truthy = false →
          keyVals "$orderby" ps = []) := by
  unfold handleGetParams at h
  cases hbq : buildQueryParams args with
  | error e => rw [hbq] at h; exact absurd h (by simp)
  | ok params =>
    rw [hbq] at h
    simp only [Except.ok.injEq] at h
    subst h
    obtain ⟨hfil, hord⟩ := buildQueryParams_filter_orderby args params hbq
    refine ⟨?_, ?_, ?_, ?_, ?_⟩
    · intro hfe
      rw [if_neg hfe]
      exact keyVals_setFirst_same "$filter" _ _
    · intro hfe
      rw [if_pos hfe]
      have hft := filter_not_truthy_of_empty args hfe
      split
      · rw [keyVals_append, hfil, hft]
        simp [keyVals]
      · rw [hfil, hft]
        simp
    · intro hot
      have hco : (dOB.truthy && !(args.get "orderby").truthy) = false := by
        simp [hot]
      have hbase : keyVals "$orderby"
          (if dOB.truthy && !(args.get "orderby").truthy = true then
            params ++ [("$orderby", dOB.render)] else params)
          = [(args.get "orderby").render] := by
        rw [if_neg (by simp [hco]), hord, if_pos hot]
      split
      · simpa using hbase
      · rw [keyVals_setFirst_ne _ _ _ (by decide)]
        simpa using hbase
    · intro hot hdt
      have hbase : keyVals "$orderby"
          (if dOB.truthy && !(args.get "orderby").truthy = true then
            params ++ [("$orderby", dOB.render)] else params)
          = [dOB.render] := by
        rw [if_pos (by simp [hot, hdt]), keyVals_append, hord, if_neg (by simp [hot])]
        simp [keyVals]
      split
      · simpa using hbase
      · rw [keyVals_setFirst_ne _ _ _ (by decide)]
        simpa using hbase
    · intro hot hdt
      have hbase : keyVals "$orderby"
          (if dOB.truthy && !(args.get "orderby").truthy = true then
            params ++ [("$orderby", dOB.render)] else params)
          = [] := by
        rw [if_neg (by simp [hot, hdt]), hord, if_neg (by simp [hot])]
      split
      · simpa using hbase
      · rw [keyVals_setFirst_ne _ _ _ (by decide)]
        simpa using hbase

/-- Witness for C5: `{active_only: true, orderby: "name desc", filter:
"code eq 7"}` with default sort `name asc` — the composed filter replaces
the raw `filter` parameter (one `$filter`, no duplicate) and the
caller-supplied `orderby` suppresses the default. -/
theorem handleGetParams_merge_witness :
    handleGetParams
        [("active_only", JSValue.boolV true), ("orderby", JSValue.strV "name desc"),
         ("filter", JSValue.strV "code eq 7")] (JSValue.strV "name asc")
      = .ok [("$orderby", "name desc"), ("$filter", "active eq true and code eq 7")]
      ∧ keyVals "$filter"
          [("$orderby", "name desc"), ("$filter", "active eq true and code eq 7")]
        = ["active eq true and code eq 7"]
      ∧ keyVals "$orderby"
          [("$orderby", "name desc"), ("$filter", "active eq true and code eq 7")]
        = ["name desc"] := by
  refine ⟨rfl, ?_, ?_⟩
  · have h := (handleGetParams_merge
      [("active_only", JSValue.boolV true), ("orderby", JSValue.strV "name desc"),
       ("filter", JSValue.strV "code eq 7")] (JSValue.strV "name asc")
      [("$orderby", "name desc"), ("$filter", "active eq true and code eq 7")] rfl).1
      (by decide)
    rw [h]
    decide
  · have h := (handleGetParams_merge
      [("active_only", JSValue.boolV true), ("orderby", JSValue.strV "name desc"),
       ("filter", JSValue.strV "code eq 7")] (JSValue.strV "name asc")
      [("$orderby", "name desc"), ("$filter", "active eq true and code eq 7")] rfl).2.2.1
      (by decide)
    rw [h]
    decide
